import Mathlib

/-!
Verification of the optics composition engine of the `optics-rs` crate.

The Rust source is shallowly embedded: each optic trait bundle becomes a
structure of pure functions, `fn set(&self, source: &mut S, value: A)`
becomes state passing `S → A → S`, and `Result<T, E>` becomes `Except E T`.
`core::convert::Infallible` is the uninhabited type `Empty`.

Sources embedded:
- src/src/optics/fallible_iso/composed.rs  (`ComposedFallibleIso`)
- src/src/optics/lens/composed.rs          (`ComposedLens`)
- src/src/optics/getter/wrapper.rs         (`GetterImpl` and its
  `compose_with_*` entry points)
Helpers those files call whose sources are not in the repository snapshot
(`composed_getter`, `composed_partial_getter`, the wrapper `Impl` types'
delegating trait impls, and the crate's `infallible` conversion) are
modelled from the spec; each such definition carries a doc comment that
starts with `Modelled from the spec:`.
-/

set_option autoImplicit false

namespace OpticsRs

/-- Rust `core::convert::Infallible`, an uninhabited error type. -/
abbrev Infallible := Empty

/-- A value of the Rust trait bundle `FallibleIso<S, A>`: fallible read
(`HasGetter::try_get`), fallible reverse-construct
(`HasReverseGet::try_reverse_get`), and write (`HasSetter::set`, embedded
as state passing). `GE` is the associated `GetterError`, `RE` the
associated `ReverseError`. -/
structure FallibleIso (S A GE RE : Type) where
  try_get : S → Except GE A
  try_reverse_get : A → Except RE S
  set : S → A → S

/-- A value of the Rust trait bundle `Lens<S, A>`: total read
(`HasTotalGetter::get`) and write (`HasSetter::set`). -/
structure Lens (S A : Type) where
  get : S → A
  set : S → A → S

/-- Modelled from the spec: the `HasGetter` impl a `Lens` carries (its
source is not in the repository snapshot; `ComposedLens` relies on it via
the `L1: Lens<S, I>` bound). Per §4.1 of the spec, "a type exposing
total-read must also satisfy fallible-read by wrapping success
unconditionally", with `GetterError = Infallible`. -/
def Lens.try_get {S A : Type} (l : Lens S A) (source : S) : Except Infallible A :=
  .ok (l.get source)

/-- A value of the Rust trait bundle `Getter<S, A>`: total read only. -/
structure Getter (S A : Type) where
  get : S → A

/-- A value of the Rust trait bundle `PartialGetter<S, A>`: fallible read
only, with associated `GetterError` type `GE`. -/
structure PartialGetter (S A GE : Type) where
  try_get : S → Except GE A

/-- A value of the Rust trait bundle `Prism<S, A>`: fallible read,
infallible reverse-construct, and write. -/
structure Prism (S A GE : Type) where
  try_get : S → Except GE A
  reverse_get : A → S
  set : S → A → S

/-- A value of the Rust trait bundle `Iso<S, A>`: total read, infallible
reverse-construct, and write. -/
structure Iso (S A : Type) where
  get : S → A
  reverse_get : A → S
  set : S → A → S

/-- The struct `ComposedFallibleIso` of
src/src/optics/fallible_iso/composed.rs (lines 30-42): two stage optics
plus four caller-supplied error-mapping functions. -/
structure ComposedFallibleIso (S I A G1 R1 G2 R2 GE RE : Type) where
  optic1 : FallibleIso S I G1 R1
  optic2 : FallibleIso I A G2 R2
  getter_error_fn_1 : G1 → GE
  getter_error_fn_2 : G2 → GE
  reverse_error_fn_1 : R1 → RE
  reverse_error_fn_2 : R2 → RE

variable {S I J A G1 R1 G2 R2 G3 R3 GE RE GE' RE' E1 E2 E : Type}

/-- `HasGetter::try_get` for `ComposedFallibleIso`
(src/src/optics/fallible_iso/composed.rs lines 76-82): read stage 1,
mapping its error through `getter_error_fn_1` (the `?` operator's early
return is the `.error` branch of the match); on success read stage 2 on
the intermediate, mapping through `getter_error_fn_2`. -/
def ComposedFallibleIso.try_get (c : ComposedFallibleIso S I A G1 R1 G2 R2 GE RE)
    (source : S) : Except GE A :=
  match (c.optic1.try_get source).mapError c.getter_error_fn_1 with
  | .error e => .error e
  | .ok i => (c.optic2.try_get i).mapError c.getter_error_fn_2

/-- `HasReverseGet::try_reverse_get` for `ComposedFallibleIso`
(src/src/optics/fallible_iso/composed.rs lines 93-101): reverse-construct
stage 2 first, mapping through `reverse_error_fn_2`; on success
reverse-construct stage 1 from the intermediate, mapping through
`reverse_error_fn_1`. -/
def ComposedFallibleIso.try_reverse_get (c : ComposedFallibleIso S I A G1 R1 G2 R2 GE RE)
    (value : A) : Except RE S :=
  match (c.optic2.try_reverse_get value).mapError c.reverse_error_fn_2 with
  | .error e => .error e
  | .ok i => (c.optic1.try_reverse_get i).mapError c.reverse_error_fn_1

/-- `HasSetter::set` for `ComposedFallibleIso`
(src/src/optics/fallible_iso/composed.rs lines 109-114): `if let Ok(mut i)`
on stage 1's mapped read; on success mutate the intermediate via stage 2's
`set` and write it back via stage 1's `set`; otherwise the source is left
unchanged. -/
def ComposedFallibleIso.set (c : ComposedFallibleIso S I A G1 R1 G2 R2 GE RE)
    (source : S) (value : A) : S :=
  match (c.optic1.try_get source).mapError c.getter_error_fn_1 with
  | .ok i => c.optic1.set source (c.optic2.set i value)
  | .error _ => source

/-- The public composition entry point `new` of
src/src/optics/fallible_iso/composed.rs (lines 117-136). It wraps the
`ComposedFallibleIso` in a `FallibleIsoImpl` returned as
`impl FallibleIso<S, A, GetterError = GE, ReverseError = RE>`; the wrapper
type's delegating impls are not in the repository snapshot, so — modelled
from the spec's wrapper-layer description (§4.8) — the result here is the
composite's three operations packaged as a `FallibleIso`. -/
def FallibleIsoComposed.new (f1 : FallibleIso S I G1 R1) (f2 : FallibleIso I A G2 R2)
    (getter_error_fn_1 : G1 → GE) (getter_error_fn_2 : G2 → GE)
    (reverse_error_fn_1 : R1 → RE) (reverse_error_fn_2 : R2 → RE) :
    FallibleIso S A GE RE where
  try_get := ComposedFallibleIso.try_get
    ⟨f1, f2, getter_error_fn_1, getter_error_fn_2, reverse_error_fn_1, reverse_error_fn_2⟩
  try_reverse_get := ComposedFallibleIso.try_reverse_get
    ⟨f1, f2, getter_error_fn_1, getter_error_fn_2, reverse_error_fn_1, reverse_error_fn_2⟩
  set := ComposedFallibleIso.set
    ⟨f1, f2, getter_error_fn_1, getter_error_fn_2, reverse_error_fn_1, reverse_error_fn_2⟩

/-- The struct `ComposedLens` of src/src/optics/lens/composed.rs
(lines 34-38): two stage lenses. -/
structure ComposedLens (S I A : Type) where
  optic1 : Lens S I
  optic2 : Lens I A

/-- `HasGetter::try_get` for `ComposedLens`
(src/src/optics/lens/composed.rs lines 61-64): chain the two stages' reads
with `?`; `GetterError = Infallible`. -/
def ComposedLens.try_get (c : ComposedLens S I A) (source : S) : Except Infallible A :=
  match c.optic1.try_get source with
  | .error e => .error e
  | .ok i => c.optic2.try_get i

/-- `HasSetter::set` for `ComposedLens`
(src/src/optics/lens/composed.rs lines 72-76): total-read the intermediate
via stage 1's `get`, mutate it via stage 2's `set`, write it back via
stage 1's `set`. -/
def ComposedLens.set (c : ComposedLens S I A) (source : S) (value : A) : S :=
  let i := c.optic1.get source
  let i2 := c.optic2.set i value
  c.optic1.set source i2

/-- The public composition entry point `new` of
src/src/optics/lens/composed.rs (lines 79-85), returning the composite as
a `LensImpl<S, A, impl Lens<S, A>>`. The wrapper's delegating impls are
not in the repository snapshot; modelled from the spec (§4.1), the
composite's total `get` is the (necessarily `ok`) value of its `try_get`,
since `GetterError` is `Infallible`. -/
def LensComposed.new (l1 : Lens S I) (l2 : Lens I A) : Lens S A where
  get := fun s =>
    match ComposedLens.try_get ⟨l1, l2⟩ s with
    | .ok a => a
    | .error e => e.elim
  set := ComposedLens.set ⟨l1, l2⟩

/-- Modelled from the spec: the crate's `infallible` conversion helper
(imported by src/src/optics/getter/wrapper.rs but not in the repository
snapshot). It converts the impossible `Infallible` error into any target
error type; `Empty.elim` is the canonical such function. -/
def infallible {E : Type} (e : Infallible) : E :=
  e.elim

/-- Modelled from the spec: `composed_getter`
(src/optics/getter/composed.rs, called as `composed_getter` by
src/src/optics/getter/wrapper.rs but not in the repository snapshot).
Per §4.3 of the spec, the composite of two total-read stages is the total
read `get(s) = g2.get(g1.get(s))`. -/
def composedGetter (g1 : Getter S I) (g2 : Getter I A) : Getter S A :=
  ⟨fun s => g2.get (g1.get s)⟩

/-- Modelled from the spec: `composed_partial_getter`
(called by src/src/optics/getter/wrapper.rs but not in the repository
snapshot). Per §4.4 of the spec: evaluate stage 1; on failure, map its
error through the first mapping function and return; on success, feed the
intermediate into stage 2's `try_get`; on failure, map through the second
mapping function and return; otherwise return the final value. -/
def composedPartialGetter (o1 : PartialGetter S I E1) (o2 : PartialGetter I A E2)
    (f1 : E1 → E) (f2 : E2 → E) : PartialGetter S A E :=
  ⟨fun s =>
    match o1.try_get s with
    | .error e => .error (f1 e)
    | .ok i =>
      match o2.try_get i with
      | .error e => .error (f2 e)
      | .ok a => .ok a⟩

/-- `HasGetter::try_get` for `GetterImpl`
(src/src/optics/getter/wrapper.rs lines 24-30): wrap the underlying total
read in `Ok` unconditionally; `GetterError = Infallible`. In this
embedding the transparent wrapper `GetterImpl<S, A, G>` is identified with
the `Getter` it wraps. -/
def GetterImpl.try_get (g : Getter S A) (source : S) : Except Infallible A :=
  .ok (g.get source)

/-- `GetterImpl::compose_with_getter`
(src/src/optics/getter/wrapper.rs lines 33-38): `composed_getter` on the
two underlying getters. -/
def GetterImpl.compose_with_getter (g1 : Getter S I) (g2 : Getter I A) : Getter S A :=
  composedGetter g1 g2

/-- `GetterImpl::compose_with_prism`
(src/src/optics/getter/wrapper.rs lines 40-45): takes only the two optics
and calls `composed_partial_getter(self, other, infallible, identity)` —
the two error-mapping functions are supplied by the framework as the
canonical `infallible` conversion and the identity, so the composite's
`GetterError` is the prism's `P2::GetterError`. The `self` argument is the
`GetterImpl` read as a fallible getter via `GetterImpl.try_get`. -/
def GetterImpl.compose_with_prism (g : Getter S I) (p : Prism I A GE) :
    PartialGetter S A GE :=
  composedPartialGetter ⟨GetterImpl.try_get g⟩ ⟨p.try_get⟩ infallible id

/-- `GetterImpl::compose_with_lens`
(src/src/optics/getter/wrapper.rs lines 47-52): `composed_getter(self,
other.0)`, the lens contributing only its total read — the result is a
`Getter` with no write capability. -/
def GetterImpl.compose_with_lens (g : Getter S I) (l : Lens I A) : Getter S A :=
  composedGetter g ⟨l.get⟩

/-- `GetterImpl::compose_with_fallible_iso`
(src/src/optics/getter/wrapper.rs lines 54-59):
`composed_partial_getter(self, other.0, infallible, identity)`, with the
framework-supplied mapping functions, so the composite's `GetterError` is
the fallible iso's `FI2::GetterError`. -/
def GetterImpl.compose_with_fallible_iso (g : Getter S I)
    (fi : FallibleIso I A GE RE) : PartialGetter S A GE :=
  composedPartialGetter ⟨GetterImpl.try_get g⟩ ⟨fi.try_get⟩ infallible id

/-- `GetterImpl::compose_with_iso`
(src/src/optics/getter/wrapper.rs lines 61-66): `composed_getter(self,
other.0)`, the iso contributing only its total read — the result is a
`Getter` with no write capability. -/
def GetterImpl.compose_with_iso (g : Getter S I) (iso : Iso I A) : Getter S A :=
  composedGetter g ⟨iso.get⟩

/-! ## Concrete optics used by witnesses and counterexamples -/

/-- A fallible iso on `Nat` whose read always fails with error `0`. -/
def fiFail : FallibleIso Nat Nat Nat Nat :=
  ⟨fun _ => .error 0, fun a => .ok a, fun _ v => v⟩

/-- The identity-like fallible iso on `Nat`: both directions succeed and
`set` replaces the source with the value. -/
def fiPass : FallibleIso Nat Nat Unit Unit :=
  ⟨fun s => .ok s, fun a => .ok a, fun _ v => v⟩

/-- A concrete composed fallible iso whose first stage's read fails on
every source. -/
def cFailFirst : ComposedFallibleIso Nat Nat Nat Nat Nat Unit Unit Nat Nat :=
  ⟨fiFail, fiPass, id, fun _ => 1, id, fun _ => 1⟩

/-- The identity lens on `Nat`. -/
def lId : Lens Nat Nat :=
  ⟨fun s => s, fun _ v => v⟩

/-- A concrete getter on `Nat`, used to exercise `compose_with_prism`. -/
def gEx : Getter Nat Nat :=
  ⟨fun s => s + 1⟩

/-- A concrete prism on `Nat` whose read always fails, reporting ten times
its source as the error. -/
def pEx : Prism Nat Nat Nat :=
  ⟨fun i => .error (i * 10), fun a => a, fun _ v => v⟩

/-- Follows the claim's words, not the source: a Getter∘Prism composition
entry point that takes two caller-supplied getter-error-mapping functions,
as C9 asserts `compose_with_prism` does. Compare with
`GetterImpl.compose_with_prism`, which takes no such arguments. -/
def specComposeWithPrism (g : Getter S I) (p : Prism I A G2)
    (f1 : Infallible → E) (f2 : G2 → E) : PartialGetter S A E :=
  composedPartialGetter ⟨GetterImpl.try_get g⟩ ⟨p.try_get⟩ f1 f2

/-- A fallible iso on `Nat` whose read succeeds with the source itself but
whose `set` replaces the source by `value + 1` (it does not satisfy the
get-set round-trip law; the Rust `FallibleIso` trait does not require
it). -/
def fiStep : FallibleIso Nat Nat Unit Unit :=
  ⟨fun s => .ok s, fun i => .ok i, fun _ v => v + 1⟩

/-- A fallible iso on `Nat` whose read always fails and whose `set` leaves
the source unchanged. -/
def fiBlock : FallibleIso Nat Nat Unit Unit :=
  ⟨fun _ => .error (), fun j => .ok j, fun i _ => i⟩

/-- The left association `(fiStep ∘ fiBlock) ∘ fiPass`. -/
def assocLhs : FallibleIso Nat Nat Unit Unit :=
  FallibleIsoComposed.new (FallibleIsoComposed.new fiStep fiBlock id id id id)
    fiPass id id id id

/-- The right association `fiStep ∘ (fiBlock ∘ fiPass)`. -/
def assocRhs : FallibleIso Nat Nat Unit Unit :=
  FallibleIsoComposed.new fiStep (FallibleIsoComposed.new fiBlock fiPass id id id id)
    id id id id

/-! ## C1, C2, C3, C10: the composed fallible iso's operations -/

/-- C1: for a composed `FallibleIso`, if stage 1's `try_get` on `s` fails,
then `set s v` returns `s` unchanged — the whole operation is a no-op,
never a partial mutation
(src/src/optics/fallible_iso/composed.rs lines 109-114). -/
theorem composedFallibleIso_set_noop_of_stage1_failure
    (c : ComposedFallibleIso S I A G1 R1 G2 R2 GE RE) (s : S) (v : A) (e : G1)
    (h : c.optic1.try_get s = .error e) :
    c.set s v = s := by
  unfold ComposedFallibleIso.set
  rw [h]
  simp [Except.mapError]

/-- Witness for C1: the concrete composite `cFailFirst`, whose first
stage's read fails (with error `0`) on source `3`, leaves source `3`
unchanged under `set 3 7`. -/
theorem composedFallibleIso_set_noop_of_stage1_failure_witness :
    cFailFirst.set 3 7 = 3 :=
  composedFallibleIso_set_noop_of_stage1_failure cFailFirst 3 7 0 rfl

/-- C2: the composed fallible iso's `try_get` evaluates stage 1 first; a
stage-1 failure `e1` yields `error (getter_error_fn_1 e1)`; on success
with intermediate `i`, a stage-2 failure `e2` yields
`error (getter_error_fn_2 e2)`; otherwise the stage-2 result is returned
(src/src/optics/fallible_iso/composed.rs lines 76-82). -/
theorem composedFallibleIso_try_get_eq
    (c : ComposedFallibleIso S I A G1 R1 G2 R2 GE RE) (s : S) :
    c.try_get s =
      match c.optic1.try_get s with
      | .error e1 => .error (c.getter_error_fn_1 e1)
      | .ok i =>
        match c.optic2.try_get i with
        | .error e2 => .error (c.getter_error_fn_2 e2)
        | .ok a => .ok a := by
  unfold ComposedFallibleIso.try_get
  cases h1 : c.optic1.try_get s with
  | error e => simp [Except.mapError]
  | ok i =>
    cases h2 : c.optic2.try_get i with
    | error e => simp [Except.mapError, h2]
    | ok a => simp [Except.mapError, h2]

/-- C3: the composed fallible iso's `try_reverse_get` runs in the reverse
order of `try_get`: stage 2's reverse-construct first (failure mapped
through `reverse_error_fn_2`), and only on its success stage 1's
reverse-construct on the intermediate (failure mapped through
`reverse_error_fn_1`), whose success is the result
(src/src/optics/fallible_iso/composed.rs lines 93-101). -/
theorem composedFallibleIso_try_reverse_get_eq
    (c : ComposedFallibleIso S I A G1 R1 G2 R2 GE RE) (a : A) :
    c.try_reverse_get a =
      match c.optic2.try_reverse_get a with
      | .error e2 => .error (c.reverse_error_fn_2 e2)
      | .ok i =>
        match c.optic1.try_reverse_get i with
        | .error e1 => .error (c.reverse_error_fn_1 e1)
        | .ok s => .ok s := by
  unfold ComposedFallibleIso.try_reverse_get
  cases h2 : c.optic2.try_reverse_get a with
  | error e => simp [Except.mapError]
  | ok i =>
    cases h1 : c.optic1.try_reverse_get i with
    | error e => simp [Except.mapError, h1]
    | ok s => simp [Except.mapError, h1]

/-- C10: `set` on a composed fallible iso does not depend on the four
error-mapping functions — two composites built from the same two stages
but arbitrary (even differently-typed) error mappings produce identical
final sources for every source and value
(src/src/optics/fallible_iso/composed.rs lines 109-114: `map_err` cannot
change whether the stage-1 read is `Ok`). -/
theorem composedFallibleIso_set_ignores_error_fns
    (f1 : FallibleIso S I G1 R1) (f2 : FallibleIso I A G2 R2)
    (a1 : G1 → GE) (a2 : G2 → GE) (a3 : R1 → RE) (a4 : R2 → RE)
    (b1 : G1 → GE') (b2 : G2 → GE') (b3 : R1 → RE') (b4 : R2 → RE')
    (s : S) (v : A) :
    (FallibleIsoComposed.new f1 f2 a1 a2 a3 a4).set s v
      = (FallibleIsoComposed.new f1 f2 b1 b2 b3 b4).set s v := by
  show ComposedFallibleIso.set ⟨f1, f2, a1, a2, a3, a4⟩ s v
    = ComposedFallibleIso.set ⟨f1, f2, b1, b2, b3, b4⟩ s v
  unfold ComposedFallibleIso.set
  cases h : f1.try_get s <;> simp [Except.mapError]

/-! ## C4, C8: the composed lens's operations -/

/-- C4: `set` on a composed lens performs exactly: total-read the
intermediate via stage 1's `get`, mutate it via stage 2's `set`, write it
back via stage 1's `set`. As a total Lean function it can never fail
(src/src/optics/lens/composed.rs lines 72-76). -/
theorem composedLens_set_eq (l1 : Lens S I) (l2 : Lens I A) (s : S) (v : A) :
    (LensComposed.new l1 l2).set s v = l1.set s (l2.set (l1.get s) v) :=
  rfl

/-- C8: the composed lens's `try_get` never returns an error (its error
type is `Infallible`, i.e. `Empty`), and always returns `ok` of the chain
of the two stages' reads (src/src/optics/lens/composed.rs lines 61-64). -/
theorem composedLens_try_get_total (l1 : Lens S I) (l2 : Lens I A) (s : S) :
    (∀ e : Infallible, ComposedLens.try_get ⟨l1, l2⟩ s ≠ .error e)
      ∧ ComposedLens.try_get ⟨l1, l2⟩ s = .ok (l2.get (l1.get s)) :=
  ⟨fun e => e.elim, rfl⟩

/-- Witness for C8: the concrete composition of two identity lenses reads
`ok 0` from source `0`. -/
theorem composedLens_try_get_total_witness :
    ComposedLens.try_get ⟨lId, lId⟩ 0 = .ok 0 :=
  (composedLens_try_get_total lId lId 0).2

/-! ## C5: Getter composed with Lens / Iso degrades to Getter -/

/-- C5: composing a `Getter` with a `Lens` or an `Iso` yields a `Getter`
whose total read is `g2.get (g1.get s)`; the result type `Getter` carries
no write capability — the stronger operand's extra capabilities are
dropped (src/src/optics/getter/wrapper.rs lines 47-52 and 61-66). -/
theorem getter_compose_lens_iso_get
    (g : Getter S I) (l : Lens I A) (iso : Iso I A) (s : S) :
    (GetterImpl.compose_with_lens g l).get s = l.get (g.get s)
      ∧ (GetterImpl.compose_with_iso g iso).get s = iso.get (g.get s) :=
  ⟨rfl, rfl⟩

/-! ## C9: which entry points take error-mapping functions -/

/-- Counterexample for C9: the entry point described by the claim would
let the caller map the prism's error (here `e ↦ e + 1`, giving `51`), but
the source's `compose_with_prism` — which takes only the two optics —
delivers the prism's raw error `50`, i.e. the framework defaulted the
mappings to `infallible`/`identity` instead of taking them from the
caller. -/
theorem compose_with_prism_default_maps_counterexample :
    (specComposeWithPrism gEx pEx infallible (fun e => e + 1)).try_get 4
        = .error 51
      ∧ (GetterImpl.compose_with_prism gEx pEx).try_get 4 = .error 50 :=
  ⟨rfl, rfl⟩

/-- C9 amended: the FallibleIso∘FallibleIso constructor does take its
four error maps explicitly (see `FallibleIsoComposed.new`), but the
Getter∘Prism and Getter∘FallibleIso entry points take no error-mapping
arguments: the framework defaults stage 1's map to the canonical
`infallible` conversion and stage 2's to the identity, so the composite's
`try_get` is exactly stage 2's `try_get` applied to stage 1's total read,
errors passed through unmapped
(src/src/optics/getter/wrapper.rs lines 40-45 and 54-59). -/
theorem compose_with_prism_fallible_iso_eq
    (g : Getter S I) (p : Prism I A GE) (fi : FallibleIso I A GE' RE') (s : S) :
    (GetterImpl.compose_with_prism g p).try_get s = p.try_get (g.get s)
      ∧ (GetterImpl.compose_with_fallible_iso g fi).try_get s
        = fi.try_get (g.get s) := by
  constructor
  · show (match p.try_get (g.get s) with
      | .error e => Except.error (id e)
      | .ok a => Except.ok a) = p.try_get (g.get s)
    cases p.try_get (g.get s) <;> rfl
  · show (match fi.try_get (g.get s) with
      | .error e => Except.error (id e)
      | .ok a => Except.ok a) = fi.try_get (g.get s)
    cases fi.try_get (g.get s) <;> rfl

/-! ## C7: round-trip through a composed fallible iso -/

/-- C7: if both stages of a composed fallible iso satisfy the round-trip
law (`try_reverse_get x = ok y` implies `try_get y = ok x`), then whenever
the composite's `try_reverse_get a` succeeds with `s`, the composite's
`try_get s` succeeds and returns `a`
(src/src/optics/fallible_iso/composed.rs lines 76-82 and 93-101). -/
theorem composedFallibleIso_round_trip
    (c : ComposedFallibleIso S I A G1 R1 G2 R2 GE RE)
    (h1 : ∀ i s, c.optic1.try_reverse_get i = .ok s → c.optic1.try_get s = .ok i)
    (h2 : ∀ a i, c.optic2.try_reverse_get a = .ok i → c.optic2.try_get i = .ok a)
    (a : A) (s : S)
    (h : c.try_reverse_get a = .ok s) :
    c.try_get s = .ok a := by
  unfold ComposedFallibleIso.try_reverse_get at h
  unfold ComposedFallibleIso.try_get
  cases hr2 : c.optic2.try_reverse_get a with
  | error e => rw [hr2] at h; simp [Except.mapError] at h
  | ok i =>
    rw [hr2] at h
    simp only [Except.mapError] at h
    cases hr1 : c.optic1.try_reverse_get i with
    | error e => rw [hr1] at h; simp [Except.mapError] at h
    | ok s2 =>
      rw [hr1] at h
      simp only [Except.mapError, Except.ok.injEq] at h
      subst h
      rw [h1 i s2 hr1]
      simp only [Except.mapError]
      rw [h2 a i hr2]

/-- Witness for C7: both stages of the concrete composite built from two
copies of the identity-like `fiPass` satisfy the round-trip law, its
`try_reverse_get 4` succeeds with `4`, and its `try_get 4` returns
`ok 4`. -/
theorem composedFallibleIso_round_trip_witness :
    ComposedFallibleIso.try_get ⟨fiPass, fiPass, id, id, id, id⟩ 4 = .ok 4 :=
  composedFallibleIso_round_trip ⟨fiPass, fiPass, id, id, id, id⟩
    (fun i s hh => by
      have hs : i = s := Except.ok.inj hh
      subst hs
      rfl)
    (fun a i hh => by
      have hs : a = i := Except.ok.inj hh
      subst hs
      rfl)
    4 4 rfl

/-! ## C6: associativity of composition -/

/-- Counterexample for C6: with stage 2's read failing while stage 1's
succeeds, the two associations of a composed fallible iso disagree on
`set`: the left association's outer stage-1 read fails, so `set` is a
no-op (`0`), while the right association reads `0` from stage 1, leaves it
unchanged in the failing inner composite, and writes it back through
`fiStep.set`, producing `1`. -/
theorem compose_assoc_counterexample :
    assocLhs.set 0 5 = 0 ∧ assocRhs.set 0 5 = 1
      ∧ assocLhs.set 0 5 ≠ assocRhs.set 0 5 :=
  ⟨rfl, rfl, by decide⟩

/-- C6 amended: for three composed Lenses, `try_get` and `set` are
associative unconditionally; for three composed FallibleIsos with agreeing
error mappings, `try_get` is associative unconditionally, and `set` is
associative provided stage 1's `set` restores every source it was read
from (`try_get s = ok i → set s i = s`, the get-set round-trip law) —
without that proviso the two associations can disagree when stage 2's read
fails (see the counterexample). -/
theorem compose_assoc_amended
    (l1 : Lens S I) (l2 : Lens I J) (l3 : Lens J A)
    (f1 : FallibleIso S I G1 R1) (f2 : FallibleIso I J G2 R2) (f3 : FallibleIso J A G3 R3)
    (e1 : G1 → GE) (e2 : G2 → GE) (e3 : G3 → GE)
    (r1 : R1 → RE) (r2 : R2 → RE) (r3 : R3 → RE)
    (hgs : ∀ s i, f1.try_get s = .ok i → f1.set s i = s) :
    (∀ s, (LensComposed.new (LensComposed.new l1 l2) l3).try_get s
        = (LensComposed.new l1 (LensComposed.new l2 l3)).try_get s)
    ∧ (∀ s v, (LensComposed.new (LensComposed.new l1 l2) l3).set s v
        = (LensComposed.new l1 (LensComposed.new l2 l3)).set s v)
    ∧ (∀ s, (FallibleIsoComposed.new (FallibleIsoComposed.new f1 f2 e1 e2 r1 r2)
            f3 id e3 id r3).try_get s
        = (FallibleIsoComposed.new f1 (FallibleIsoComposed.new f2 f3 e2 e3 r2 r3)
            e1 id r1 id).try_get s)
    ∧ (∀ s v, (FallibleIsoComposed.new (FallibleIsoComposed.new f1 f2 e1 e2 r1 r2)
            f3 id e3 id r3).set s v
        = (FallibleIsoComposed.new f1 (FallibleIsoComposed.new f2 f3 e2 e3 r2 r3)
            e1 id r1 id).set s v) := by
  refine ⟨fun s => rfl, fun s v => rfl, fun s => ?_, fun s v => ?_⟩
  · cases h1 : f1.try_get s with
    | error e =>
      simp [FallibleIsoComposed.new, ComposedFallibleIso.try_get, h1, Except.mapError]
    | ok i =>
      cases h2 : f2.try_get i with
      | error e =>
        simp [FallibleIsoComposed.new, ComposedFallibleIso.try_get, h1, h2,
          Except.mapError]
      | ok j =>
        cases h3 : f3.try_get j with
        | error e =>
          simp [FallibleIsoComposed.new, ComposedFallibleIso.try_get, h1, h2, h3,
            Except.mapError]
        | ok a =>
          simp [FallibleIsoComposed.new, ComposedFallibleIso.try_get, h1, h2, h3,
            Except.mapError]
  · cases h1 : f1.try_get s with
    | error e =>
      simp [FallibleIsoComposed.new, ComposedFallibleIso.set,
        ComposedFallibleIso.try_get, h1, Except.mapError]
    | ok i =>
      cases h2 : f2.try_get i with
      | error e =>
        simp [FallibleIsoComposed.new, ComposedFallibleIso.set,
          ComposedFallibleIso.try_get, h1, h2, Except.mapError, hgs s i h1]
      | ok j =>
        simp [FallibleIsoComposed.new, ComposedFallibleIso.set,
          ComposedFallibleIso.try_get, h1, h2, Except.mapError]

/-- Witness for the amended C6: concrete three-stage compositions of
identity lenses and of the lawful `fiPass` (which satisfies the get-set
round-trip law) agree on `set 2 5` under both associations. -/
theorem compose_assoc_amended_witness :
    (LensComposed.new (LensComposed.new lId lId) lId).set 2 5
      = (LensComposed.new lId (LensComposed.new lId lId)).set 2 5
    ∧ (FallibleIsoComposed.new (FallibleIsoComposed.new fiPass fiPass id id id id)
        fiPass id id id id).set 2 5
      = (FallibleIsoComposed.new fiPass (FallibleIsoComposed.new fiPass fiPass id id id id)
        id id id id).set 2 5 :=
  ⟨(compose_assoc_amended lId lId lId fiPass fiPass fiPass id id id id id id
      (fun _ _ hh => (Except.ok.inj hh).symm)).2.1 2 5,
   (compose_assoc_amended lId lId lId fiPass fiPass fiPass id id id id id id
      (fun _ _ hh => (Except.ok.inj hh).symm)).2.2.2 2 5⟩

end OpticsRs
